import Mathlib

/-!
Verification development for the ai-impact-calc scoring engine.

The Python sources are shallowly embedded here:
* `src/util.py`        → the numeric transforms (`clamp`, `sat_log`, `logistic`,
  `to_minus1_plus1_from_0_1`, `gate`, `exp_downside_penalty`), over `ℝ`
  (Python floats are modelled as exact real numbers).
* `src/models.py`      → `Regime`, `TimeHorizon`, `RegimeMixture` (weights as `ℚ`,
  which contains every float value; `normalized` uses only field operations),
  `Signal`, `FactorOutput`, `RubricWeights`, `ScoreBreakdown`.
* `src/magic_data_provider.py` → `ProviderData`, `getValue`, `getScore`,
  `get_regime_mixture`; Python exceptions become `Except ScoreErr`.
* `src/mega_rubric_scorer.py`  → the seven factor-group evaluators,
  `aggregate_risk` and `score_company`.

Python dicts are modelled as association lists (in insertion order) or as
functions into `Option`; a raised `ValueError` is an `Except.error`.
-/

-- ===========================================================================
-- src/util.py
-- ===========================================================================

/-- `clamp(x, lo, hi)` from util.py: `max(lo, min(hi, x))`. -/
noncomputable def clamp (x lo hi : ℝ) : ℝ := max lo (min hi x)

/-- `sat_log(x, k)` from util.py: `x = max(0.0, x)`, then
`log1p(k * x) / log1p(k * 1.0)`. -/
noncomputable def sat_log (x k : ℝ) : ℝ :=
  Real.log (1 + k * max 0 x) / Real.log (1 + k * 1)

/-- `logistic(x, k, x0)` from util.py: `1.0 / (1.0 + exp(-k * (x - x0)))`. -/
noncomputable def logistic (x k x0 : ℝ) : ℝ :=
  1 / (1 + Real.exp (-k * (x - x0)))

/-- `to_minus1_plus1_from_0_1(x01)` from util.py: `2.0 * clamp(x01, 0, 1) - 1.0`. -/
noncomputable def to_minus1_plus1_from_0_1 (x01 : ℝ) : ℝ := 2 * clamp x01 0 1 - 1

/-- `gate(value01, threshold, softness)` from util.py. -/
noncomputable def gate (value01 threshold softness : ℝ) : ℝ :=
  let v := clamp value01 0 1
  if softness ≤ 0 then (if threshold ≤ v then 1 else 0)
  else clamp (logistic ((v - threshold) / softness) 3 0) 0 1

/-- `exp_downside_penalty(incident_score01, strength)` from util.py:
`exp(-strength * clamp(incident_score01, 0, 1))`. -/
noncomputable def exp_downside_penalty (incident_score01 strength : ℝ) : ℝ :=
  Real.exp (-strength * clamp incident_score01 0 1)

-- ===========================================================================
-- src/models.py
-- ===========================================================================

/-- The `Regime` enum from models.py. -/
inductive Regime where
  | POWER_CONSTRAINED_BOOM
  | POWER_CONSTRAINED_STAGFLATION
  | TRUST_COLLAPSE
  | REGULATORY_CLAMPDOWN
  | HYPER_COMPETITION
  | CAPITAL_CONCENTRATION
  | GEOPOLITICAL_BIFURCATION
  | SECURITY_ARMS_RACE
deriving DecidableEq, Repr

/-- The `TimeHorizon` enum from models.py. -/
inductive TimeHorizon where
  | SHORT
  | MID
  | LONG
deriving DecidableEq, Repr

/-- `RegimeMixture` from models.py: a mapping from `Regime` to a weight,
modelled as an association list in insertion order.  Weights are kept in `ℚ`
(every Python float is a rational) so that `normalized`, which only adds,
compares and divides weights, is exactly computable. -/
structure RegimeMixture where
  weights : List (Regime × ℚ)
deriving DecidableEq

/-- `sum(max(0.0, float(v)) for v in self.weights.values())` from
`RegimeMixture.normalized`. -/
def sumClamped (ws : List (Regime × ℚ)) : ℚ := (ws.map fun p => max 0 p.2).sum

/-- The sum of the (raw) weight values of a mixture. -/
def sumVals (ws : List (Regime × ℚ)) : ℚ := (ws.map fun p => p.2).sum

/-- `{k: max(0.0, float(v)) / s for k, v in self.weights.items()}` — divide
every clamped weight by the clamped sum. -/
def normalizeBy (ws : List (Regime × ℚ)) : List (Regime × ℚ) :=
  ws.map fun p => (p.1, max 0 p.2 / sumClamped ws)

/-- The fixed default mixture used by `RegimeMixture.normalized` when the
clamped weight sum is ≤ 0. -/
def defaultMixtureWeights : List (Regime × ℚ) :=
  [(Regime.POWER_CONSTRAINED_BOOM, 0.35),
   (Regime.SECURITY_ARMS_RACE, 0.35),
   (Regime.TRUST_COLLAPSE, 0.15),
   (Regime.HYPER_COMPETITION, 0.15)]

/-- `RegimeMixture.normalized` from models.py.  The source recursively calls
`RegimeMixture(default).normalized()` in the `s <= 0` branch; since the
default's clamped sum is `0.35+0.35+0.15+0.15 = 1 > 0`, that call takes the
positive branch, i.e. it returns `normalizeBy defaultMixtureWeights` — the
recursion is unfolded once here. -/
def RegimeMixture.normalized (m : RegimeMixture) : RegimeMixture :=
  if sumClamped m.weights ≤ 0 then ⟨normalizeBy defaultMixtureWeights⟩
  else ⟨normalizeBy m.weights⟩

/-- `mix.weights.get(r, 0.0)`: dictionary lookup with default 0, used by the
factor-group evaluators. -/
def RegimeMixture.getW (m : RegimeMixture) (r : Regime) : ℚ :=
  (List.lookup r m.weights).getD 0

/-- `Signal` from models.py.  `details` is `Mapping[str, Any]`; it is modelled
as an association list of strings (the scorer never reads it). -/
structure Signal where
  value : ℝ
  scale : String
  confidence : ℝ
  freshness_days : ℤ
  details : List (String × String)

/-- `FactorOutput` from models.py.  The `gates`, `multipliers` and `risk`
dictionaries are association lists in insertion order; every `debug` value
produced by the scorer is a float, so `debug` maps to `List (String × ℝ)`. -/
structure FactorOutput where
  additive : ℝ
  gates : List (String × ℝ) := []
  multipliers : List (String × ℝ) := []
  risk : List (String × ℝ) := []
  debug : List (String × ℝ) := []

/-- `RubricWeights` from models.py (a frozen dataclass of ten floats; the
dataclass body performs no validation whatsoever).  `w_macr` embeds the
source field `w_macro`. -/
structure RubricWeights where
  w_macr : ℝ
  w_constraint : ℝ
  w_trust : ℝ
  w_control_points : ℝ
  w_adaptation : ℝ
  w_georeg : ℝ
  w_capital_alloc : ℝ
  risk_weight : ℝ
  score_min : ℝ
  score_max : ℝ

/-- The default field values of `RubricWeights`. -/
noncomputable def defaultRubricWeights : RubricWeights :=
  { w_macr := 0.12, w_constraint := 0.18, w_trust := 0.18,
    w_control_points := 0.18, w_adaptation := 0.14, w_georeg := 0.10,
    w_capital_alloc := 0.10, risk_weight := 0.35,
    score_min := -100.0, score_max := 100.0 }

/-- `ScoreBreakdown` from models.py. -/
structure ScoreBreakdown where
  company : String
  horizon : TimeHorizon
  as_of : Option String
  regime_mixture : RegimeMixture
  group_outputs : List (String × FactorOutput)
  base_additive : ℝ
  gate_multiplier : ℝ
  multiplier_product : ℝ
  risk_index : ℝ
  final_score : ℝ

-- ===========================================================================
-- src/magic_data_provider.py
-- ===========================================================================

/-- One metric entry of the provider's JSON data.  Every field may be absent
(`metric_data.get(...)` supplies a default in `get_value`). -/
structure MetricEntry where
  value : Option ℝ := none
  scale : Option String := none
  confidence : Option ℝ := none
  freshness_days : Option ℤ := none
  details : Option (List (String × String)) := none

/-- `MagicDataProvider.data`: the loaded JSON object — company name to metric
id to metric entry, absent keys modelled by `Option`. -/
def ProviderData : Type := String → Option (String → Option MetricEntry)

/-- The `ValueError`s raised by `MagicDataProvider.get_value`. -/
inductive ScoreErr where
  | companyNotFound (company : String)
  | metricNotFound (company metric_id : String)
deriving DecidableEq, Repr

/-- `MagicDataProvider.get_value` from magic_data_provider.py: fail when the
company or the metric is absent, otherwise build a `Signal` filling each
absent field with its default (`value` 0.0, `scale` "raw", `confidence` 0.8,
`freshness_days` 30, `details` `{}`).  `horizon` and `as_of` are accepted and
(as in the source) not used for the lookup. -/
def getValue (data : ProviderData) (metric_id company : String)
    (_horizon : TimeHorizon) (_as_of : Option String) : Except ScoreErr Signal :=
  match data company with
  | none => .error (.companyNotFound company)
  | some company_data =>
    match company_data metric_id with
    | none => .error (.metricNotFound company metric_id)
    | some metric_data =>
      .ok { value := metric_data.value.getD 0,
            scale := metric_data.scale.getD "raw",
            confidence := metric_data.confidence.getD 0.8,
            freshness_days := metric_data.freshness_days.getD 30,
            details := metric_data.details.getD [] }

/-- `MagicDataProvider.get_score` from magic_data_provider.py: call
`get_value`; if the requested `score_range` equals exactly `(-1.0, 1.0)`,
replace the value by `2.0 * value - 1.0`; otherwise return the signal
unchanged.  The ranges the program ever passes are `(0, 1)` and the default
`(-1.0, 1.0)` — both exact rationals, so the tuple comparison is `ℚ × ℚ`
equality. -/
noncomputable def getScore (data : ProviderData) (metric_id company : String)
    (horizon : TimeHorizon) (as_of : Option String) (score_range : ℚ × ℚ) :
    Except ScoreErr Signal :=
  match getValue data metric_id company horizon as_of with
  | .error e => .error e
  | .ok signal =>
    if score_range = ((-1 : ℚ), (1 : ℚ)) then
      .ok { signal with value := 2 * signal.value - 1 }
    else .ok signal

/-- `MagicDataProvider.get_regime_mixture`: a constant mixture. -/
def get_regime_mixture (_horizon : TimeHorizon) (_as_of : Option String) :
    RegimeMixture :=
  ⟨[(Regime.POWER_CONSTRAINED_BOOM, 0.25),
    (Regime.SECURITY_ARMS_RACE, 0.30),
    (Regime.TRUST_COLLAPSE, 0.15),
    (Regime.HYPER_COMPETITION, 0.20),
    (Regime.REGULATORY_CLAMPDOWN, 0.10)]⟩

-- ===========================================================================
-- src/mega_rubric_scorer.py : factor-group evaluators
-- ===========================================================================

/-- `MegaRubricScorer._macro_and_liquidity` (names with the source's "macro"
spelled "macr"). -/
noncomputable def evalMacr (data : ProviderData) (company : String)
    (horizon : TimeHorizon) (as_of : Option String) (_mix : RegimeMixture) :
    Except ScoreErr FactorOutput :=
  match getScore data "macro.company_sensitivity" company horizon as_of (0, 1) with
  | .error e => .error e
  | .ok s1 =>
  match getScore data "macro.tightness_index" company horizon as_of (0, 1) with
  | .error e => .error e
  | .ok s2 =>
    let macr_fragile := s1.value
    let macr_tight := s2.value
    let defensive := 1 - clamp macr_fragile 0 1
    let additive01 := 0.5 * defensive + 0.5 * defensive * clamp macr_tight 0 1
    let additive := to_minus1_plus1_from_0_1 additive01
    let risk_tail := clamp (macr_fragile * macr_tight) 0 1
    .ok { additive := additive,
          risk := [("macro_tail", risk_tail)],
          debug := [("macro_fragile", macr_fragile), ("macro_tight", macr_tight)] }

/-- `MegaRubricScorer._constraint_regime`. -/
noncomputable def evalConstraint (data : ProviderData) (company : String)
    (horizon : TimeHorizon) (as_of : Option String) (_mix : RegimeMixture) :
    Except ScoreErr FactorOutput :=
  match getScore data "constraint.power_access_good" company horizon as_of (0, 1) with
  | .error e => .error e
  | .ok s1 =>
  match getScore data "constraint.compute_access_good" company horizon as_of (0, 1) with
  | .error e => .error e
  | .ok s2 =>
    let power_access := s1.value
    let compute_access := s2.value
    let g_power := gate power_access 0.55 0.08
    let g_compute := gate compute_access 0.50 0.10
    let additive01 := 0.55 * sat_log power_access 3.0 + 0.45 * sat_log compute_access 2.0
    let additive := to_minus1_plus1_from_0_1 (clamp additive01 0 1)
    let risk := clamp ((1 - power_access) * 0.6 + (1 - compute_access) * 0.4) 0 1
    .ok { additive := additive,
          gates := [("power_gate", g_power), ("compute_gate", g_compute)],
          risk := [("power_constraint", risk)],
          debug := [("power_access", power_access), ("compute_access", compute_access)] }

/-- `MegaRubricScorer._trust_and_legitimacy`. -/
noncomputable def evalTrust (data : ProviderData) (company : String)
    (horizon : TimeHorizon) (as_of : Option String) (_mix : RegimeMixture) :
    Except ScoreErr FactorOutput :=
  match getScore data "trust.security_maturity_good" company horizon as_of (0, 1) with
  | .error e => .error e
  | .ok s1 =>
  match getScore data "trust.auditability_good" company horizon as_of (0, 1) with
  | .error e => .error e
  | .ok s2 =>
  match getScore data "trust.provenance_support_good" company horizon as_of (0, 1) with
  | .error e => .error e
  | .ok s3 =>
  match getScore data "trust.security_incident_bad" company horizon as_of (0, 1) with
  | .error e => .error e
  | .ok s4 =>
    let security_maturity := s1.value
    let auditability := s2.value
    let provenance_support := s3.value
    let incident_bad := s4.value
    let incident_penalty := exp_downside_penalty incident_bad 3.5
    let g_trust := clamp incident_penalty 0 1
    let quality01 := 0.45 * security_maturity + 0.35 * auditability + 0.20 * provenance_support
    let additive01 := logistic quality01 4.0 0.55
    let additive := to_minus1_plus1_from_0_1 additive01
    let trust_mult := (0.6 + 0.5 * clamp quality01 0 1) * g_trust
    let risk := clamp (incident_bad * (1 - security_maturity)) 0 1
    .ok { additive := additive,
          gates := [("trust_gate", g_trust)],
          multipliers := [("trust_multiplier", clamp trust_mult 0 1.25)],
          risk := [("security_incident", risk)],
          debug := [("security_maturity", security_maturity),
                    ("auditability", auditability),
                    ("provenance_support", provenance_support),
                    ("incident_bad", incident_bad),
                    ("quality01", quality01)] }

/-- `MegaRubricScorer._control_point_concentration`. -/
noncomputable def evalControl (data : ProviderData) (company : String)
    (horizon : TimeHorizon) (as_of : Option String) (mix : RegimeMixture) :
    Except ScoreErr FactorOutput :=
  match getScore data "platform.distribution_lock_good" company horizon as_of (0, 1) with
  | .error e => .error e
  | .ok s1 =>
  match getScore data "platform.switching_cost_good" company horizon as_of (0, 1) with
  | .error e => .error e
  | .ok s2 =>
  match getScore data "platform.data_advantage_good" company horizon as_of (0, 1) with
  | .error e => .error e
  | .ok s3 =>
  match getScore data "platform.network_effects_good" company horizon as_of (0, 1) with
  | .error e => .error e
  | .ok s4 =>
    let distribution_lock := s1.value
    let switching_cost := s2.value
    let data_advantage := s3.value
    let network_effects := s4.value
    let additive01 := 0.35 * sat_log distribution_lock 4.0
      + 0.25 * sat_log switching_cost 3.0
      + 0.20 * sat_log data_advantage 2.0
      + 0.20 * sat_log network_effects 3.0
    let additive := to_minus1_plus1_from_0_1 (clamp additive01 0 1)
    let regime_boost := (mix.getW Regime.HYPER_COMPETITION : ℝ) * 0.10
      + (mix.getW Regime.CAPITAL_CONCENTRATION : ℝ) * 0.12
    let flywheel := clamp (0.95 + regime_boost + 0.15 * clamp distribution_lock 0 1) 0 1.25
    .ok { additive := additive,
          multipliers := [("control_flywheel", flywheel)],
          debug := [("distribution_lock", distribution_lock),
                    ("switching_cost", switching_cost),
                    ("data_advantage", data_advantage),
                    ("network_effects", network_effects),
                    ("flywheel", flywheel)] }

/-- `MegaRubricScorer._adaptation_speed`. -/
noncomputable def evalAdapt (data : ProviderData) (company : String)
    (horizon : TimeHorizon) (as_of : Option String) (mix : RegimeMixture) :
    Except ScoreErr FactorOutput :=
  match getScore data "org.ship_velocity_good" company horizon as_of (0, 1) with
  | .error e => .error e
  | .ok s1 =>
  match getScore data "org.talent_density_good" company horizon as_of (0, 1) with
  | .error e => .error e
  | .ok s2 =>
  match getScore data "org.internal_agent_adoption_good" company horizon as_of (0, 1) with
  | .error e => .error e
  | .ok s3 =>
  match getScore data "org.restructure_velocity_good" company horizon as_of (0, 1) with
  | .error e => .error e
  | .ok s4 =>
    let ship_velocity := s1.value
    let talent_density := s2.value
    let internal_agent_use := s3.value
    let cost_restructure := s4.value
    let additive01 := 0.30 * ship_velocity + 0.30 * talent_density
      + 0.20 * internal_agent_use + 0.20 * cost_restructure
    let additive := to_minus1_plus1_from_0_1 (clamp additive01 0 1)
    let disruption := (mix.getW Regime.HYPER_COMPETITION : ℝ)
      + (mix.getW Regime.SECURITY_ARMS_RACE : ℝ)
    let adapt_mult := clamp (0.90 + 0.25 * clamp additive01 0 1 + 0.10 * clamp disruption 0 1) 0 1.25
    let risk_exec := clamp ((1 - ship_velocity) * 0.6 + (1 - cost_restructure) * 0.4) 0 1
    .ok { additive := additive,
          multipliers := [("adaptation_multiplier", adapt_mult)],
          risk := [("execution", risk_exec)],
          debug := [("ship_velocity", ship_velocity),
                    ("talent_density", talent_density),
                    ("internal_agent_use", internal_agent_use),
                    ("cost_restructure", cost_restructure),
                    ("adapt_mult", adapt_mult)] }

/-- `MegaRubricScorer._geopolitical_and_regulatory`. -/
noncomputable def evalGeoreg (data : ProviderData) (company : String)
    (horizon : TimeHorizon) (as_of : Option String) (mix : RegimeMixture) :
    Except ScoreErr FactorOutput :=
  match getScore data "reg.compliance_readiness_good" company horizon as_of (0, 1) with
  | .error e => .error e
  | .ok s1 =>
  match getScore data "reg.liability_readiness_good" company horizon as_of (0, 1) with
  | .error e => .error e
  | .ok s2 =>
  match getScore data "geo.export_control_exposure_bad" company horizon as_of (0, 1) with
  | .error e => .error e
  | .ok s3 =>
  match getScore data "geo.sanctions_exposure_bad" company horizon as_of (0, 1) with
  | .error e => .error e
  | .ok s4 =>
  match getScore data "reg.antitrust_risk_bad" company horizon as_of (0, 1) with
  | .error e => .error e
  | .ok s5 =>
    let compliance_readiness := s1.value
    let liability_ready := s2.value
    let export_controls_bad := s3.value
    let sanctions_bad := s4.value
    let antitrust_bad := s5.value
    let readiness01 := 0.55 * compliance_readiness + 0.45 * liability_ready
    let exposure01 := 0.45 * export_controls_bad + 0.25 * sanctions_bad + 0.30 * antitrust_bad
    let additive01 := clamp (readiness01 * (1 - 0.7 * exposure01)) 0 1
    let additive := to_minus1_plus1_from_0_1 additive01
    let clampdown_weight := (mix.getW Regime.REGULATORY_CLAMPDOWN : ℝ)
    let reg_gate := (gate readiness01 0.55 0.10) ^ ((1 : ℝ) + 2 * clampdown_weight)
    let risk_reg := clamp ((1 - readiness01) * 0.6 + antitrust_bad * 0.4) 0 1
    let risk_geo := clamp (export_controls_bad * 0.7 + sanctions_bad * 0.3) 0 1
    .ok { additive := additive,
          gates := [("regulatory_gate", reg_gate)],
          risk := [("regulatory", risk_reg), ("geopolitical", risk_geo)],
          debug := [("compliance_readiness", compliance_readiness),
                    ("liability_ready", liability_ready),
                    ("export_controls_bad", export_controls_bad),
                    ("sanctions_bad", sanctions_bad),
                    ("antitrust_bad", antitrust_bad),
                    ("readiness01", readiness01),
                    ("exposure01", exposure01),
                    ("reg_gate", reg_gate)] }

/-- `MegaRubricScorer._capital_allocation`. -/
noncomputable def evalCapalloc (data : ProviderData) (company : String)
    (horizon : TimeHorizon) (as_of : Option String) (mix : RegimeMixture) :
    Except ScoreErr FactorOutput :=
  match getScore data "capital.free_cash_flow_strength_good" company horizon as_of (0, 1) with
  | .error e => .error e
  | .ok s1 =>
  match getScore data "capital.balance_sheet_strength_good" company horizon as_of (0, 1) with
  | .error e => .error e
  | .ok s2 =>
  match getScore data "capital.mna_integration_skill_good" company horizon as_of (0, 1) with
  | .error e => .error e
  | .ok s3 =>
  match getScore data "capital.allocation_discipline_good" company horizon as_of (0, 1) with
  | .error e => .error e
  | .ok s4 =>
  match getScore data "capital.moonshot_propensity_bad" company horizon as_of (0, 1) with
  | .error e => .error e
  | .ok s5 =>
    let fcf_strength := s1.value
    let balance_sheet := s2.value
    let mna_skill := s3.value
    let discipline := s4.value
    let moonshot_bad := s5.value
    let additive01 := clamp (0.30 * fcf_strength + 0.25 * balance_sheet
      + 0.20 * mna_skill + 0.25 * discipline - 0.25 * moonshot_bad) 0 1
    let additive := to_minus1_plus1_from_0_1 additive01
    let conc := (mix.getW Regime.CAPITAL_CONCENTRATION : ℝ)
    let mna_mult := clamp (0.95 + 0.20 * conc * clamp mna_skill 0 1
      + 0.10 * conc * clamp balance_sheet 0 1) 0 1.20
    let risk_moon := clamp (moonshot_bad * (1 - discipline)) 0 1
    .ok { additive := additive,
          multipliers := [("mna_multiplier", mna_mult)],
          risk := [("execution", risk_moon)],
          debug := [("fcf_strength", fcf_strength),
                    ("balance_sheet", balance_sheet),
                    ("mna_skill", mna_skill),
                    ("discipline", discipline),
                    ("moonshot_bad", moonshot_bad),
                    ("mna_mult", mna_mult)] }

-- ===========================================================================
-- src/mega_rubric_scorer.py : aggregation
-- ===========================================================================

/-- The fixed `channel_weights` table of `_aggregate_risk`. -/
noncomputable def channelWeights : List (String × ℝ) :=
  [("macro_tail", 0.18), ("power_constraint", 0.18), ("security_incident", 0.22),
   ("regulatory", 0.16), ("geopolitical", 0.16), ("execution", 0.10)]

/-- The accumulation loop of `_aggregate_risk`: for every group (in dict
order), for every risk channel, if the channel name is in the table add
`w * clamp(v, 0, 1)` to the accumulator and `w` to the weight sum. -/
noncomputable def riskLoop (gs : List (String × FactorOutput)) : ℝ × ℝ :=
  gs.foldl (fun st g =>
    g.2.risk.foldl (fun st p =>
      match channelWeights.lookup p.1 with
      | some w => (st.1 + w * clamp p.2 0 1, st.2 + w)
      | none => st) st) (0, 0)

/-- `MegaRubricScorer._aggregate_risk`: run the loop; if the accumulated
weight sum is ≤ 0 return the 0.25 default, otherwise `clamp(accum/wsum,0,1)`. -/
noncomputable def aggregate_risk (gs : List (String × FactorOutput)) : ℝ :=
  if (riskLoop gs).2 ≤ 0 then 0.25
  else clamp ((riskLoop gs).1 / (riskLoop gs).2) 0 1

/-- The gates-and-multipliers loop of `score_company`: starting from
`(1.0, 1.0)`, multiply every gate value (clamped to `[0,1]`) into the first
component and every multiplier value (clamped to `[0,1.25]`) into the second. -/
noncomputable def gatesMultsLoop (gs : List (String × FactorOutput)) : ℝ × ℝ :=
  gs.foldl (fun st g =>
    (g.2.gates.foldl (fun acc p => acc * clamp p.2 0 1) st.1,
     g.2.multipliers.foldl (fun acc p => acc * clamp p.2 0 1.25) st.2)) (1, 1)

/-- The straight-line tail of `score_company` once all seven factor groups
have evaluated: assemble the `ScoreBreakdown` exactly as in the source. -/
noncomputable def assembleBreakdown (w : RubricWeights) (company : String)
    (horizon : TimeHorizon) (as_of : Option String) (mix : RegimeMixture)
    (out_macr out_constraint out_trust out_control out_adapt out_georeg
     out_capalloc : FactorOutput) : ScoreBreakdown :=
  let group_outputs : List (String × FactorOutput) :=
    [("macro", out_macr), ("constraint", out_constraint), ("trust", out_trust),
     ("control_points", out_control), ("adaptation", out_adapt),
     ("georeg", out_georeg), ("capital_alloc", out_capalloc)]
  let base := clamp (w.w_macr * out_macr.additive
    + w.w_constraint * out_constraint.additive
    + w.w_trust * out_trust.additive
    + w.w_control_points * out_control.additive
    + w.w_adaptation * out_adapt.additive
    + w.w_georeg * out_georeg.additive
    + w.w_capital_alloc * out_capalloc.additive) (-1) 1
  let gm := gatesMultsLoop group_outputs
  let risk_index := aggregate_risk group_outputs
  let raw := base * gm.1 * gm.2
  let risk_discount := clamp (1 - w.risk_weight * risk_index ^ (1.2 : ℝ)) 0 1
  let raw2 := raw * risk_discount
  let final := clamp (100 * clamp raw2 (-1) 1) w.score_min w.score_max
  { company := company, horizon := horizon, as_of := as_of,
    regime_mixture := mix, group_outputs := group_outputs,
    base_additive := base, gate_multiplier := gm.1,
    multiplier_product := gm.2, risk_index := risk_index,
    final_score := final }

/-- `MegaRubricScorer.score_company`: resolve and normalize the regime
mixture (falling back to the provider's `get_regime_mixture` when none is
supplied), evaluate the seven factor groups — any signal-lookup failure
propagates — and assemble the breakdown. -/
noncomputable def score_company (data : ProviderData) (w : RubricWeights)
    (company : String) (horizon : TimeHorizon) (as_of : Option String)
    (regime_mixture : Option RegimeMixture) : Except ScoreErr ScoreBreakdown :=
  let mix := (regime_mixture.getD (get_regime_mixture horizon as_of)).normalized
  match evalMacr data company horizon as_of mix with
  | .error e => .error e
  | .ok out_macr =>
  match evalConstraint data company horizon as_of mix with
  | .error e => .error e
  | .ok out_constraint =>
  match evalTrust data company horizon as_of mix with
  | .error e => .error e
  | .ok out_trust =>
  match evalControl data company horizon as_of mix with
  | .error e => .error e
  | .ok out_control =>
  match evalAdapt data company horizon as_of mix with
  | .error e => .error e
  | .ok out_adapt =>
  match evalGeoreg data company horizon as_of mix with
  | .error e => .error e
  | .ok out_georeg =>
  match evalCapalloc data company horizon as_of mix with
  | .error e => .error e
  | .ok out_capalloc =>
    .ok (assembleBreakdown w company horizon as_of mix out_macr out_constraint
      out_trust out_control out_adapt out_georeg out_capalloc)

/-- `MegaRubricScorer` (the class holds the provider and the weights). -/
structure MegaRubricScorer where
  p : ProviderData
  w : RubricWeights

/-- `MegaRubricScorer.__init__`: store the provider and `weights or
RubricWeights()` (a dataclass instance is always truthy, so this is a
None-check).  No validation of any kind is performed. -/
noncomputable def mkScorer (provider : ProviderData)
    (weights : Option RubricWeights) : MegaRubricScorer :=
  { p := provider, w := weights.getD defaultRubricWeights }

-- ===========================================================================
-- Spec-side definitions (from the spec's words, §4.4/§4.5), for comparison
-- with the embedded source
-- ===========================================================================

/-- Spec §4.4 step 3: the additive weight a group name carries, "weights from
RubricWeights". -/
noncomputable def groupWeight (w : RubricWeights) (name : String) : ℝ :=
  if name = "macro" then w.w_macr
  else if name = "constraint" then w.w_constraint
  else if name = "trust" then w.w_trust
  else if name = "control_points" then w.w_control_points
  else if name = "adaptation" then w.w_adaptation
  else if name = "georeg" then w.w_georeg
  else if name = "capital_alloc" then w.w_capital_alloc
  else 0

/-- Spec §4.4 step 3: "sum of (group weight × group additive) across all
groups". -/
noncomputable def specWeightedBase (w : RubricWeights)
    (gs : List (String × FactorOutput)) : ℝ :=
  (gs.map fun p => groupWeight w p.1 * p.2.additive).sum

/-- Spec §4.4 step 4: the product, across every gate value in every group,
of the gate values each clamped to `[0,1]`; empty product 1. -/
noncomputable def specGateProd (gs : List (String × FactorOutput)) : ℝ :=
  (gs.map fun p => (p.2.gates.map fun q => clamp q.2 0 1).prod).prod

/-- Spec §4.4 step 5: the product, across every multiplier value in every
group, of the multiplier values each clamped to `[0,1.25]`; empty product 1. -/
noncomputable def specMultProd (gs : List (String × FactorOutput)) : ℝ :=
  (gs.map fun p => (p.2.multipliers.map fun q => clamp q.2 0 1.25).prod).prod

/-- The table weights of the risk channels of one group that match the
`channelWeights` table. -/
noncomputable def matchedOf (l : List (String × ℝ)) : List ℝ :=
  l.filterMap fun q => channelWeights.lookup q.1

/-- Spec §4.5: the numerator contribution `weight × clamp(value,0,1)` of one
group's matching risk channels. -/
noncomputable def riskNumOf (l : List (String × ℝ)) : ℝ :=
  (l.filterMap fun q => (channelWeights.lookup q.1).map fun w => w * clamp q.2 0 1).sum

/-- Spec §4.5: the total numerator over every group's emitted channels. -/
noncomputable def riskNum (gs : List (String × FactorOutput)) : ℝ :=
  (gs.map fun p => riskNumOf p.2.risk).sum

/-- Spec §4.5: the total denominator — the table weight of every matching
emitted channel (a channel emitted by two groups contributes twice). -/
noncomputable def riskDen (gs : List (String × FactorOutput)) : ℝ :=
  (gs.map fun p => (matchedOf p.2.risk).sum).sum

/-- "No emitted risk-channel name matches the fixed weight table." -/
def noMatchTable (gs : List (String × FactorOutput)) : Prop :=
  ∀ p ∈ gs, ∀ q ∈ p.2.risk, channelWeights.lookup q.1 = none

/-- The 26 metric ids `score_company` queries, in query order. -/
def requiredMetrics : List String :=
  ["macro.company_sensitivity", "macro.tightness_index",
   "constraint.power_access_good", "constraint.compute_access_good",
   "trust.security_maturity_good", "trust.auditability_good",
   "trust.provenance_support_good", "trust.security_incident_bad",
   "platform.distribution_lock_good", "platform.switching_cost_good",
   "platform.data_advantage_good", "platform.network_effects_good",
   "org.ship_velocity_good", "org.talent_density_good",
   "org.internal_agent_adoption_good", "org.restructure_velocity_good",
   "reg.compliance_readiness_good", "reg.liability_readiness_good",
   "geo.export_control_exposure_bad", "geo.sanctions_exposure_bad",
   "reg.antitrust_risk_bad",
   "capital.free_cash_flow_strength_good", "capital.balance_sheet_strength_good",
   "capital.mna_integration_skill_good", "capital.allocation_discipline_good",
   "capital.moonshot_propensity_bad"]

-- ===========================================================================
-- Concrete data used by the witnesses
-- ===========================================================================

/-- A provider in which every company holds every metric with value 0.5. -/
noncomputable def dataW : ProviderData :=
  fun _ => some fun _ => some { value := some 0.5 }

/-- A provider in which the company exists but holds no metric at all. -/
def dataNone : ProviderData := fun _ => some fun _ => none

/-- A metric entry with every field absent. -/
def entryEmpty : MetricEntry := {}

/-- A provider whose entries omit every field. -/
def dataEmptyFields : ProviderData := fun _ => some fun _ => some entryEmpty

/-- A provider whose stored values lie far outside the `[0,1]` range. -/
noncomputable def dataBig : ProviderData :=
  fun _ => some fun _ => some { value := some 5 }

instance : Inhabited ScoreBreakdown :=
  ⟨{ company := "", horizon := TimeHorizon.SHORT, as_of := none,
     regime_mixture := ⟨[]⟩, group_outputs := [], base_additive := 0,
     gate_multiplier := 0, multiplier_product := 0, risk_index := 0,
     final_score := 0 }⟩

/-- The breakdown `score_company` produces on `dataW` with default weights
and the provider's regime mixture. -/
noncomputable def bdW : ScoreBreakdown :=
  match score_company dataW defaultRubricWeights "AcmeAI" TimeHorizon.MID none none with
  | .ok bd => bd
  | .error _ => default

/-- A one-regime mixture with weight exactly 1. -/
def mixOne : RegimeMixture := ⟨[(Regime.TRUST_COLLAPSE, 1)]⟩

/-- A mixture with positive weight sum 4. -/
def mixPos : RegimeMixture := ⟨[(Regime.HYPER_COMPETITION, 3), (Regime.TRUST_COLLAPSE, 1)]⟩

/-- An all-zero mixture. -/
def mixZero : RegimeMixture := ⟨[(Regime.TRUST_COLLAPSE, 0)]⟩

/-- An empty mixture. -/
def mixEmpty : RegimeMixture := ⟨[]⟩

-- ===========================================================================
-- Helper lemmas about clamp
-- ===========================================================================

theorem clamp_mem_Icc (x lo hi : ℝ) (h : lo ≤ hi) : clamp x lo hi ∈ Set.Icc lo hi :=
  ⟨le_max_left _ _, max_le h (min_le_left _ _)⟩

theorem clamp_eq_self {x lo hi : ℝ} (h1 : lo ≤ x) (h2 : x ≤ hi) : clamp x lo hi = x := by
  unfold clamp
  rw [min_eq_right h2, max_eq_right h1]

theorem clamp_idem (x lo hi : ℝ) (h : lo ≤ hi) :
    clamp (clamp x lo hi) lo hi = clamp x lo hi :=
  clamp_eq_self (clamp_mem_Icc x lo hi h).1 (clamp_mem_Icc x lo hi h).2

-- ===========================================================================
-- C7
-- ===========================================================================

/-- C7 (refuting evidence): the transforms are not total on finite inputs —
at concrete finite arguments the source expressions leave the domains of the
underlying `math` calls.  For `sat_log(x, 0)` the normalizing denominator
`log1p(k * 1.0)` is exactly 0, so the source's division raises
ZeroDivisionError (the real-valued model can only return the junk value 0);
for `sat_log(1, -2)` the `log1p` argument is `1 + k·x = -1 ≤ 0`, outside the
logarithm's domain, so the source raises ValueError; `logistic(-300, 3, 0)`
evaluates `exp(900)` and `gate(0, 1, 10⁻³⁰⁰)` (a positive softness) evaluates
`exp(3·10³⁰⁰)`, arguments far beyond the largest double-precision exponent
(≈709.78), so the source's `math.exp` raises OverflowError; and
`exp_downside_penalty(1, -10⁹)` evaluates `exp(10⁹)` and overflows the same
way. -/
theorem transforms_raise_on_finite_inputs :
    (Real.log (1 + (0 : ℝ) * 1) = 0 ∧ sat_log 0.5 0 = 0) ∧
    ((1 + (-2 : ℝ) * max 0 (1 : ℝ)) < 0 ∧ sat_log 1 (-2) = 0) ∧
    logistic (-300) 3 0 = 1 / (1 + Real.exp 900) ∧
    (0 : ℝ) < 1 / 10 ^ 300 ∧
    gate 0 1 (1 / 10 ^ 300) = clamp (1 / (1 + Real.exp (3 * 10 ^ 300))) 0 1 ∧
    exp_downside_penalty 1 (-(10 ^ 9)) = Real.exp (10 ^ 9) := by
  refine ⟨⟨by norm_num, ?_⟩, ⟨by norm_num, ?_⟩, ?_, by positivity, ?_, ?_⟩
  · unfold sat_log
    norm_num
  · have h1 : (1 + (-2 : ℝ) * max 0 (1 : ℝ)) = -1 := by norm_num
    have h2 : (1 + (-2 : ℝ) * 1) = -1 := by norm_num
    have hlog : Real.log (-1 : ℝ) = 0 := by
      rw [show (-1 : ℝ) = -(1 : ℝ) from rfl, Real.log_neg_eq_log, Real.log_one]
    unfold sat_log
    rw [h1, h2, hlog]
    norm_num
  · unfold logistic
    norm_num
  · unfold gate
    rw [if_neg (by norm_num : ¬ (1 / 10 ^ 300 : ℝ) ≤ 0)]
    have hv : clamp 0 0 1 = 0 := by
      unfold clamp
      norm_num
    rw [hv]
    have harg : ((0 : ℝ) - 1) / (1 / 10 ^ 300) = -(10 ^ 300) := by
      field_simp
    unfold logistic
    rw [harg]
    norm_num
  · unfold exp_downside_penalty
    have hc : clamp 1 0 1 = 1 := by
      unfold clamp
      norm_num
    rw [hc]
    norm_num

-- ===========================================================================
-- C10
-- ===========================================================================

/-- C10: whenever the company and the metric are both present, `get_value`
succeeds and fills each absent field of the stored entry with its default:
`value` 0.0, `scale` "raw", `confidence` 0.8, `freshness_days` 30, `details`
the empty map.  Fail-fast applies only to an absent company or metric key. -/
theorem get_value_field_defaults (data : ProviderData)
    (cd : String → Option MetricEntry) (e : MetricEntry) (c m : String)
    (h : TimeHorizon) (a : Option String)
    (h1 : data c = some cd) (h2 : cd m = some e) :
    getValue data m c h a = Except.ok
      { value := e.value.getD 0, scale := e.scale.getD "raw",
        confidence := e.confidence.getD 0.8,
        freshness_days := e.freshness_days.getD 30,
        details := e.details.getD [] } := by
  simp only [getValue, h1, h2]

theorem get_value_field_defaults_witness :
    dataEmptyFields "C" = some (fun _ => some entryEmpty) ∧
    (fun _ : String => some entryEmpty) "m" = some entryEmpty ∧
    getValue dataEmptyFields "m" "C" TimeHorizon.SHORT none = Except.ok
      { value := 0, scale := "raw", confidence := 0.8,
        freshness_days := 30, details := [] } :=
  ⟨rfl, rfl,
    get_value_field_defaults dataEmptyFields (fun _ => some entryEmpty) entryEmpty
      "C" "m" TimeHorizon.SHORT none rfl rfl⟩

-- ===========================================================================
-- C8
-- ===========================================================================

/-- C8 (refuting theorem): constructing a `MegaRubricScorer` performs no
validation whatsoever — it stores any supplied `RubricWeights` unchanged and
substitutes the defaults when none is given.  There is no rejection path at
construction time. -/
theorem scorer_construction_total :
    ∀ (provider : ProviderData) (w : RubricWeights),
      (mkScorer provider (some w)).w = w ∧
      (mkScorer provider none).w = defaultRubricWeights :=
  fun _ _ => ⟨rfl, rfl⟩

-- ===========================================================================
-- C6
-- ===========================================================================

/-- C6 (refuting theorem): `get_score` with the core's requested range
`(0, 1)` passes the stored value through unrescaled: a stored value of 5
comes back as 5, which does not lie in `[0, 1]` — contradicting the
documented contract that the value is normalized into the requested range. -/
theorem get_score_no_rescale :
    getScore dataBig "trust.auditability_good" "Acme" TimeHorizon.MID none (0, 1) =
      Except.ok { value := 5, scale := "raw", confidence := 0.8,
                  freshness_days := 30, details := [] } ∧
    (5 : ℝ) ∉ Set.Icc (0 : ℝ) 1 := by
  constructor
  · rfl
  · norm_num [Set.mem_Icc]

-- ===========================================================================
-- Helper lemmas about RegimeMixture.normalized
-- ===========================================================================

theorem sum_map_div {α : Type} (l : List α) (f : α → ℚ) (c : ℚ) :
    (l.map fun x => f x / c).sum = (l.map f).sum / c := by
  induction l with
  | nil => simp
  | cons a t ih => simp [ih, add_div]

theorem sumClamped_nonneg (ws : List (Regime × ℚ)) : 0 ≤ sumClamped ws := by
  apply List.sum_nonneg
  intro x hx
  simp only [List.mem_map] at hx
  obtain ⟨p, -, rfl⟩ := hx
  exact le_max_left 0 _

theorem sumVals_normalizeBy (ws : List (Regime × ℚ)) (h : 0 < sumClamped ws) :
    sumVals (normalizeBy ws) = 1 := by
  unfold sumVals normalizeBy
  rw [List.map_map]
  have hc : ∀ p ∈ ws,
      ((fun p : Regime × ℚ => p.2) ∘ fun p : Regime × ℚ => (p.1, max 0 p.2 / sumClamped ws)) p
        = (fun p : Regime × ℚ => max 0 p.2 / sumClamped ws) p :=
    fun p _ => rfl
  rw [List.map_congr_left hc, sum_map_div]
  exact div_self (ne_of_gt h)

theorem sumClamped_normalizeBy (ws : List (Regime × ℚ)) (h : 0 < sumClamped ws) :
    sumClamped (normalizeBy ws) = 1 := by
  unfold sumClamped normalizeBy
  rw [List.map_map]
  have hc : ∀ p ∈ ws,
      ((fun p : Regime × ℚ => max 0 p.2) ∘ fun p : Regime × ℚ => (p.1, max 0 p.2 / sumClamped ws)) p
        = (fun p : Regime × ℚ => max 0 p.2 / sumClamped ws) p := by
    intro p _
    exact max_eq_right (div_nonneg (le_max_left 0 _) (le_of_lt h))
  rw [List.map_congr_left hc, sum_map_div]
  exact div_self (ne_of_gt h)

theorem lookup_none_of_not_mem_keys {r : Regime} :
    ∀ {l : List (Regime × ℚ)}, r ∉ l.map Prod.fst → List.lookup r l = none := by
  intro l
  induction l with
  | nil => intro; rfl
  | cons p t ih =>
    intro h
    simp only [List.map_cons, List.mem_cons] at h
    push_neg at h
    obtain ⟨h1, h2⟩ := h
    cases p with
    | mk k v =>
      simp only [List.lookup]
      rw [beq_eq_false_iff_ne.mpr h1]
      exact ih h2

-- ===========================================================================
-- C4
-- ===========================================================================

/-- C4: when the clamped weight sum `s` of a `RegimeMixture` is positive,
`normalized()` maps every entry to its clamped weight divided by `s` over the
same key list, and the resulting weights sum to 1 (hence to 1.0 within 1e-9);
when `s ≤ 0` (all-zero or empty mixtures included) it returns the
normalization of the fixed default mixture; and a regime absent from the key
set is read as weight 0 by the `getW` lookup rather than failing. -/
theorem regime_normalized_spec :
    (∀ m : RegimeMixture, 0 < sumClamped m.weights →
      m.normalized.weights
          = m.weights.map (fun p => (p.1, max 0 p.2 / sumClamped m.weights)) ∧
      m.normalized.weights.map Prod.fst = m.weights.map Prod.fst ∧
      |sumVals m.normalized.weights - 1| ≤ 1 / 1000000000) ∧
    (∀ m : RegimeMixture, sumClamped m.weights ≤ 0 →
      m.normalized = RegimeMixture.normalized ⟨defaultMixtureWeights⟩) ∧
    (∀ (m : RegimeMixture) (r : Regime),
      r ∉ m.weights.map Prod.fst → m.getW r = 0) := by
  refine ⟨?_, ?_, ?_⟩
  · intro m h
    have hw : m.normalized = ⟨normalizeBy m.weights⟩ := by
      simp [RegimeMixture.normalized, not_le.mpr h]
    refine ⟨by rw [hw]; rfl, ?_, ?_⟩
    · rw [hw]
      show (normalizeBy m.weights).map Prod.fst = _
      unfold normalizeBy
      rw [List.map_map]
      exact List.map_congr_left fun p _ => rfl
    · rw [hw]
      show |sumVals (normalizeBy m.weights) - 1| ≤ _
      rw [sumVals_normalizeBy m.weights h]
      norm_num
  · intro m h
    have hd : ¬ sumClamped defaultMixtureWeights ≤ 0 := by
      norm_num [sumClamped, defaultMixtureWeights]
    simp [RegimeMixture.normalized, h, hd]
  · intro m r h
    unfold RegimeMixture.getW
    rw [lookup_none_of_not_mem_keys h]
    rfl

theorem regime_normalized_spec_witness :
    (0 < sumClamped mixPos.weights ∧
      (mixPos.normalized.weights
          = mixPos.weights.map (fun p => (p.1, max 0 p.2 / sumClamped mixPos.weights)) ∧
       mixPos.normalized.weights.map Prod.fst = mixPos.weights.map Prod.fst ∧
       |sumVals mixPos.normalized.weights - 1| ≤ 1 / 1000000000)) ∧
    (sumClamped mixZero.weights ≤ 0 ∧
      mixZero.normalized = RegimeMixture.normalized ⟨defaultMixtureWeights⟩) ∧
    (Regime.TRUST_COLLAPSE ∉ mixEmpty.weights.map Prod.fst ∧
      mixEmpty.getW Regime.TRUST_COLLAPSE = 0) :=
  ⟨⟨by norm_num [sumClamped, mixPos],
    regime_normalized_spec.1 mixPos (by norm_num [sumClamped, mixPos])⟩,
   ⟨by norm_num [sumClamped, mixZero],
    regime_normalized_spec.2.1 mixZero (by norm_num [sumClamped, mixZero])⟩,
   ⟨by simp [mixEmpty],
    regime_normalized_spec.2.2 mixEmpty Regime.TRUST_COLLAPSE (by simp [mixEmpty])⟩⟩

theorem normalizeBy_idem (ws : List (Regime × ℚ)) (h : 0 < sumClamped ws) :
    normalizeBy (normalizeBy ws) = normalizeBy ws := by
  have h1 : sumClamped (normalizeBy ws) = 1 := sumClamped_normalizeBy ws h
  have e : normalizeBy (normalizeBy ws)
      = (normalizeBy ws).map (fun p => (p.1, max 0 p.2 / sumClamped (normalizeBy ws))) := rfl
  rw [e, h1]
  have hc : ∀ p ∈ normalizeBy ws,
      (fun p : Regime × ℚ => (p.1, max 0 p.2 / 1)) p = (fun p : Regime × ℚ => p) p := by
    intro p hp
    simp only [normalizeBy, List.mem_map] at hp
    obtain ⟨q, -, rfl⟩ := hp
    simp [max_eq_right (div_nonneg (le_max_left 0 _) (le_of_lt h))]
  rw [List.map_congr_left hc, List.map_id']

-- ===========================================================================
-- C9
-- ===========================================================================

/-- C9: `normalized()` is the identity on mixtures whose weights are all
non-negative and sum to 1 (same key set, same values), and consequently it is
idempotent: `m.normalized().normalized() = m.normalized()` for every mixture. -/
theorem normalized_idempotent :
    (∀ m : RegimeMixture, (∀ p ∈ m.weights, 0 ≤ p.2) →
      sumVals m.weights = 1 → m.normalized = m) ∧
    (∀ m : RegimeMixture, m.normalized.normalized = m.normalized) := by
  constructor
  · intro m hnn hs1
    have hceq : sumClamped m.weights = sumVals m.weights := by
      unfold sumClamped sumVals
      exact congrArg List.sum (List.map_congr_left fun p hp => max_eq_right (hnn p hp))
    have hpos : (0 : ℚ) < sumClamped m.weights := by
      rw [hceq, hs1]; norm_num
    simp only [RegimeMixture.normalized, not_le.mpr hpos, if_false]
    cases m with
    | mk ws =>
      congr 1
      unfold normalizeBy
      have : ∀ p ∈ ws, (fun p : Regime × ℚ => (p.1, max 0 p.2 / sumClamped ws)) p
          = (fun p : Regime × ℚ => p) p := by
        intro p hp
        have h1 : sumClamped ws = 1 := by
          simpa using hceq.trans hs1
        simp [h1, max_eq_right (hnn p hp)]
      rw [List.map_congr_left this, List.map_id']
  · intro m
    by_cases hF : sumClamped m.weights ≤ 0
    · simp only [RegimeMixture.normalized, if_pos hF]
      have hd : (0 : ℚ) < sumClamped defaultMixtureWeights := by
        norm_num [sumClamped, defaultMixtureWeights]
      have h1 := sumClamped_normalizeBy defaultMixtureWeights hd
      have hne : ¬ sumClamped (normalizeBy defaultMixtureWeights) ≤ 0 := by
        rw [h1]; norm_num
      simp only [RegimeMixture.normalized, hne, if_false]
      exact congrArg RegimeMixture.mk (normalizeBy_idem _ hd)
    · push_neg at hF
      have h1 := sumClamped_normalizeBy m.weights hF
      simp only [RegimeMixture.normalized, not_le.mpr hF, if_false]
      have hne2 : ¬ sumClamped (normalizeBy m.weights) ≤ 0 := by
        rw [h1]; norm_num
      simp only [RegimeMixture.normalized, hne2, if_false]
      exact congrArg RegimeMixture.mk (normalizeBy_idem _ hF)

theorem normalized_idempotent_witness :
    (∀ p ∈ mixOne.weights, (0 : ℚ) ≤ p.2) ∧ sumVals mixOne.weights = 1 ∧
      mixOne.normalized = mixOne :=
  ⟨by norm_num [mixOne], by norm_num [sumVals, mixOne],
   normalized_idempotent.1 mixOne (by norm_num [mixOne]) (by norm_num [sumVals, mixOne])⟩

-- ===========================================================================
-- Helper lemmas about the aggregation folds
-- ===========================================================================

theorem foldl_mul_clamp (l : List (String × ℝ)) (hi a : ℝ) :
    l.foldl (fun acc p => acc * clamp p.2 0 hi) a
      = a * (l.map fun q => clamp q.2 0 hi).prod := by
  induction l generalizing a with
  | nil => simp
  | cons q t ih =>
    rw [List.foldl_cons, ih, List.map_cons, List.prod_cons]
    ring

theorem gatesMultsLoop_general (gs : List (String × FactorOutput)) (a b : ℝ) :
    gs.foldl (fun st g =>
      (g.2.gates.foldl (fun acc p => acc * clamp p.2 0 1) st.1,
       g.2.multipliers.foldl (fun acc p => acc * clamp p.2 0 1.25) st.2)) (a, b)
      = (a * specGateProd gs, b * specMultProd gs) := by
  induction gs generalizing a b with
  | nil => simp [specGateProd, specMultProd]
  | cons g t ih =>
    rw [List.foldl_cons, foldl_mul_clamp, foldl_mul_clamp, ih]
    simp only [specGateProd, specMultProd, List.map_cons, List.prod_cons, Prod.mk.injEq]
    constructor <;> ring

theorem gatesMultsLoop_eq (gs : List (String × FactorOutput)) :
    gatesMultsLoop gs = (specGateProd gs, specMultProd gs) := by
  unfold gatesMultsLoop
  rw [gatesMultsLoop_general]
  simp

theorem foldl_risk_inner (l : List (String × ℝ)) (a b : ℝ) :
    l.foldl (fun st p =>
      match channelWeights.lookup p.1 with
      | some w => (st.1 + w * clamp p.2 0 1, st.2 + w)
      | none => st) (a, b)
      = (a + riskNumOf l, b + (matchedOf l).sum) := by
  induction l generalizing a b with
  | nil => simp [riskNumOf, matchedOf]
  | cons q t ih =>
    rw [List.foldl_cons]
    cases hq : channelWeights.lookup q.1 with
    | none =>
      simp only [hq]
      rw [ih]
      simp [riskNumOf, matchedOf, List.filterMap_cons, hq]
    | some w =>
      simp only [hq]
      rw [ih]
      simp [riskNumOf, matchedOf, List.filterMap_cons, hq, Prod.ext_iff]
      constructor <;> ring

theorem riskLoop_eq (gs : List (String × FactorOutput)) :
    riskLoop gs = (riskNum gs, riskDen gs) := by
  unfold riskLoop
  suffices h : ∀ a b : ℝ, gs.foldl (fun st g =>
      g.2.risk.foldl (fun st p =>
        match channelWeights.lookup p.1 with
        | some w => (st.1 + w * clamp p.2 0 1, st.2 + w)
        | none => st) st) (a, b)
      = (a + riskNum gs, b + riskDen gs) by
    rw [h 0 0]
    simp
  induction gs with
  | nil => intro a b; simp [riskNum, riskDen]
  | cons g t ih =>
    intro a b
    rw [List.foldl_cons, foldl_risk_inner, ih]
    simp only [riskNum, riskDen, List.map_cons, List.sum_cons, Prod.mk.injEq]
    constructor <;> ring

theorem lookup_channelWeights_pos (ch : String) (w : ℝ)
    (h : channelWeights.lookup ch = some w) : 0 < w := by
  simp only [channelWeights, List.lookup] at h
  repeat' split at h
  all_goals first
    | (injection h with h2; rw [← h2]; norm_num)
    | cases h

theorem matchedOf_mem_pos (l : List (String × ℝ)) : ∀ w ∈ matchedOf l, 0 < w := by
  intro w hw
  simp only [matchedOf, List.mem_filterMap] at hw
  obtain ⟨q, -, hq⟩ := hw
  exact lookup_channelWeights_pos q.1 w hq

theorem sum_pos_list {L : List ℝ} (hL : ∀ x ∈ L, 0 < x) : L.sum = 0 ↔ L = [] := by
  cases L with
  | nil => simp
  | cons x t =>
    simp only [List.sum_cons]
    have hx := hL x (by simp)
    have ht : 0 ≤ t.sum := List.sum_nonneg fun y hy => le_of_lt (hL y (by simp [hy]))
    constructor
    · intro h
      exact absurd h (by intro h2; linarith)
    · intro h
      simp at h

theorem riskDen_nonneg (gs : List (String × FactorOutput)) : 0 ≤ riskDen gs := by
  apply List.sum_nonneg
  intro x hx
  simp only [List.mem_map] at hx
  obtain ⟨p, -, rfl⟩ := hx
  exact List.sum_nonneg fun y hy => le_of_lt (matchedOf_mem_pos _ y hy)

theorem sum_eq_zero_of_nonneg {L : List ℝ} (h0 : ∀ x ∈ L, 0 ≤ x) (hs : L.sum = 0) :
    ∀ x ∈ L, x = 0 := by
  induction L with
  | nil => intro x hx; simp at hx
  | cons y t ih =>
    have hy : 0 ≤ y := h0 y (by simp)
    have ht : 0 ≤ t.sum := List.sum_nonneg fun z hz => h0 z (by simp [hz])
    rw [List.sum_cons] at hs
    have hy0 : y = 0 := by linarith
    have hts : t.sum = 0 := by linarith
    intro x hx
    rcases List.mem_cons.mp hx with rfl | hx2
    · exact hy0
    · exact ih (fun z hz => h0 z (by simp [hz])) hts x hx2

theorem riskDen_eq_zero_iff (gs : List (String × FactorOutput)) :
    riskDen gs = 0 ↔ noMatchTable gs := by
  unfold riskDen noMatchTable
  constructor
  · intro h p hp q hq
    have h0 : ∀ x ∈ gs.map (fun p => (matchedOf p.2.risk).sum), 0 ≤ x := by
      intro x hx
      simp only [List.mem_map] at hx
      obtain ⟨r, -, rfl⟩ := hx
      exact List.sum_nonneg fun y hy => le_of_lt (matchedOf_mem_pos _ y hy)
    have hz : (matchedOf p.2.risk).sum = 0 :=
      sum_eq_zero_of_nonneg h0 h _ (List.mem_map_of_mem _ hp)
    have hempty : matchedOf p.2.risk = [] :=
      (sum_pos_list (matchedOf_mem_pos _)).mp hz
    unfold matchedOf at hempty
    exact List.filterMap_eq_nil_iff.mp hempty q hq
  · intro h
    apply List.sum_eq_zero
    intro x hx
    simp only [List.mem_map] at hx
    obtain ⟨p, hp, rfl⟩ := hx
    have he : matchedOf p.2.risk = [] := by
      unfold matchedOf
      rw [List.filterMap_eq_nil_iff]
      exact fun q hq => h p hp q hq
    rw [he]
    rfl

-- ===========================================================================
-- C3
-- ===========================================================================

/-- C3: `_aggregate_risk` returns exactly 0.25 when no emitted risk-channel
name matches the fixed weight table, and otherwise
`clamp(numerator/denominator, 0, 1)` where every matching emitted channel —
a channel emitted by two groups, such as `execution`, contributing once per
emission — adds `weight × clamp(value,0,1)` to the numerator and its table
weight to the denominator, unknown channel names being ignored. -/
theorem aggregate_risk_spec (gs : List (String × FactorOutput)) :
    aggregate_risk gs
        = (if riskDen gs = 0 then (0.25 : ℝ)
           else clamp (riskNum gs / riskDen gs) 0 1) ∧
    (riskDen gs = 0 ↔ noMatchTable gs) := by
  refine ⟨?_, riskDen_eq_zero_iff gs⟩
  unfold aggregate_risk
  rw [riskLoop_eq]
  dsimp only
  by_cases hz : riskDen gs = 0
  · rw [if_pos (le_of_eq hz), if_pos hz]
  · have hpos : 0 < riskDen gs := lt_of_le_of_ne (riskDen_nonneg gs) (Ne.symm hz)
    rw [if_neg (not_le.mpr hpos), if_neg hz]

-- ===========================================================================
-- Inversion lemmas: a successful evaluation implies every queried signal
-- resolved
-- ===========================================================================

theorem getScore_ok_getValue {d : ProviderData} {m c : String} {h : TimeHorizon}
    {a : Option String} {r : ℚ × ℚ} {s : Signal}
    (hs : getScore d m c h a r = .ok s) : ∃ t, getValue d m c h a = .ok t := by
  unfold getScore at hs
  cases hv : getValue d m c h a with
  | error e => rw [hv] at hs; simp at hs
  | ok t => exact ⟨t, rfl⟩

theorem evalMacr_ok {d : ProviderData} {c : String} {h : TimeHorizon}
    {a : Option String} {mix : RegimeMixture} {g : FactorOutput}
    (hg : evalMacr d c h a mix = .ok g) :
    (∃ t, getValue d "macro.company_sensitivity" c h a = .ok t) ∧
    (∃ t, getValue d "macro.tightness_index" c h a = .ok t) := by
  unfold evalMacr at hg
  split at hg
  next e h1 => simp at hg
  next s1 h1 =>
  split at hg
  next e h2 => simp at hg
  next s2 h2 =>
    exact ⟨getScore_ok_getValue h1, getScore_ok_getValue h2⟩

theorem evalConstraint_ok {d : ProviderData} {c : String} {h : TimeHorizon}
    {a : Option String} {mix : RegimeMixture} {g : FactorOutput}
    (hg : evalConstraint d c h a mix = .ok g) :
    (∃ t, getValue d "constraint.power_access_good" c h a = .ok t) ∧
    (∃ t, getValue d "constraint.compute_access_good" c h a = .ok t) := by
  unfold evalConstraint at hg
  split at hg
  next e h1 => simp at hg
  next s1 h1 =>
  split at hg
  next e h2 => simp at hg
  next s2 h2 =>
    exact ⟨getScore_ok_getValue h1, getScore_ok_getValue h2⟩

theorem evalTrust_ok {d : ProviderData} {c : String} {h : TimeHorizon}
    {a : Option String} {mix : RegimeMixture} {g : FactorOutput}
    (hg : evalTrust d c h a mix = .ok g) :
    (∃ t, getValue d "trust.security_maturity_good" c h a = .ok t) ∧
    (∃ t, getValue d "trust.auditability_good" c h a = .ok t) ∧
    (∃ t, getValue d "trust.provenance_support_good" c h a = .ok t) ∧
    (∃ t, getValue d "trust.security_incident_bad" c h a = .ok t) := by
  unfold evalTrust at hg
  split at hg
  next e h1 => simp at hg
  next s1 h1 =>
  split at hg
  next e h2 => simp at hg
  next s2 h2 =>
  split at hg
  next e h3 => simp at hg
  next s3 h3 =>
  split at hg
  next e h4 => simp at hg
  next s4 h4 =>
    exact ⟨getScore_ok_getValue h1, getScore_ok_getValue h2,
      getScore_ok_getValue h3, getScore_ok_getValue h4⟩

theorem evalControl_ok {d : ProviderData} {c : String} {h : TimeHorizon}
    {a : Option String} {mix : RegimeMixture} {g : FactorOutput}
    (hg : evalControl d c h a mix = .ok g) :
    (∃ t, getValue d "platform.distribution_lock_good" c h a = .ok t) ∧
    (∃ t, getValue d "platform.switching_cost_good" c h a = .ok t) ∧
    (∃ t, getValue d "platform.data_advantage_good" c h a = .ok t) ∧
    (∃ t, getValue d "platform.network_effects_good" c h a = .ok t) := by
  unfold evalControl at hg
  split at hg
  next e h1 => simp at hg
  next s1 h1 =>
  split at hg
  next e h2 => simp at hg
  next s2 h2 =>
  split at hg
  next e h3 => simp at hg
  next s3 h3 =>
  split at hg
  next e h4 => simp at hg
  next s4 h4 =>
    exact ⟨getScore_ok_getValue h1, getScore_ok_getValue h2,
      getScore_ok_getValue h3, getScore_ok_getValue h4⟩

theorem evalAdapt_ok {d : ProviderData} {c : String} {h : TimeHorizon}
    {a : Option String} {mix : RegimeMixture} {g : FactorOutput}
    (hg : evalAdapt d c h a mix = .ok g) :
    (∃ t, getValue d "org.ship_velocity_good" c h a = .ok t) ∧
    (∃ t, getValue d "org.talent_density_good" c h a = .ok t) ∧
    (∃ t, getValue d "org.internal_agent_adoption_good" c h a = .ok t) ∧
    (∃ t, getValue d "org.restructure_velocity_good" c h a = .ok t) := by
  unfold evalAdapt at hg
  split at hg
  next e h1 => simp at hg
  next s1 h1 =>
  split at hg
  next e h2 => simp at hg
  next s2 h2 =>
  split at hg
  next e h3 => simp at hg
  next s3 h3 =>
  split at hg
  next e h4 => simp at hg
  next s4 h4 =>
    exact ⟨getScore_ok_getValue h1, getScore_ok_getValue h2,
      getScore_ok_getValue h3, getScore_ok_getValue h4⟩

theorem evalGeoreg_ok {d : ProviderData} {c : String} {h : TimeHorizon}
    {a : Option String} {mix : RegimeMixture} {g : FactorOutput}
    (hg : evalGeoreg d c h a mix = .ok g) :
    (∃ t, getValue d "reg.compliance_readiness_good" c h a = .ok t) ∧
    (∃ t, getValue d "reg.liability_readiness_good" c h a = .ok t) ∧
    (∃ t, getValue d "geo.export_control_exposure_bad" c h a = .ok t) ∧
    (∃ t, getValue d "geo.sanctions_exposure_bad" c h a = .ok t) ∧
    (∃ t, getValue d "reg.antitrust_risk_bad" c h a = .ok t) := by
  unfold evalGeoreg at hg
  split at hg
  next e h1 => simp at hg
  next s1 h1 =>
  split at hg
  next e h2 => simp at hg
  next s2 h2 =>
  split at hg
  next e h3 => simp at hg
  next s3 h3 =>
  split at hg
  next e h4 => simp at hg
  next s4 h4 =>
  split at hg
  next e h5 => simp at hg
  next s5 h5 =>
    exact ⟨getScore_ok_getValue h1, getScore_ok_getValue h2,
      getScore_ok_getValue h3, getScore_ok_getValue h4, getScore_ok_getValue h5⟩

theorem evalCapalloc_ok {d : ProviderData} {c : String} {h : TimeHorizon}
    {a : Option String} {mix : RegimeMixture} {g : FactorOutput}
    (hg : evalCapalloc d c h a mix = .ok g) :
    (∃ t, getValue d "capital.free_cash_flow_strength_good" c h a = .ok t) ∧
    (∃ t, getValue d "capital.balance_sheet_strength_good" c h a = .ok t) ∧
    (∃ t, getValue d "capital.mna_integration_skill_good" c h a = .ok t) ∧
    (∃ t, getValue d "capital.allocation_discipline_good" c h a = .ok t) ∧
    (∃ t, getValue d "capital.moonshot_propensity_bad" c h a = .ok t) := by
  unfold evalCapalloc at hg
  split at hg
  next e h1 => simp at hg
  next s1 h1 =>
  split at hg
  next e h2 => simp at hg
  next s2 h2 =>
  split at hg
  next e h3 => simp at hg
  next s3 h3 =>
  split at hg
  next e h4 => simp at hg
  next s4 h4 =>
  split at hg
  next e h5 => simp at hg
  next s5 h5 =>
    exact ⟨getScore_ok_getValue h1, getScore_ok_getValue h2,
      getScore_ok_getValue h3, getScore_ok_getValue h4, getScore_ok_getValue h5⟩

theorem score_company_ok_elim {data : ProviderData} {w : RubricWeights}
    {c : String} {h : TimeHorizon} {a : Option String}
    {rm : Option RegimeMixture} {bd : ScoreBreakdown}
    (hok : score_company data w c h a rm = .ok bd) :
    ∃ mix g1 g2 g3 g4 g5 g6 g7,
      evalMacr data c h a mix = .ok g1 ∧
      evalConstraint data c h a mix = .ok g2 ∧
      evalTrust data c h a mix = .ok g3 ∧
      evalControl data c h a mix = .ok g4 ∧
      evalAdapt data c h a mix = .ok g5 ∧
      evalGeoreg data c h a mix = .ok g6 ∧
      evalCapalloc data c h a mix = .ok g7 ∧
      bd = assembleBreakdown w c h a mix g1 g2 g3 g4 g5 g6 g7 := by
  unfold score_company at hok
  dsimp only at hok
  split at hok
  next e h1 => simp at hok
  next g1 h1 =>
  split at hok
  next e h2 => simp at hok
  next g2 h2 =>
  split at hok
  next e h3 => simp at hok
  next g3 h3 =>
  split at hok
  next e h4 => simp at hok
  next g4 h4 =>
  split at hok
  next e h5 => simp at hok
  next g5 h5 =>
  split at hok
  next e h6 => simp at hok
  next g6 h6 =>
  split at hok
  next e h7 => simp at hok
  next g7 h7 =>
    refine ⟨_, g1, g2, g3, g4, g5, g6, g7, h1, h2, h3, h4, h5, h6, h7, ?_⟩
    injection hok with h8
    exact h8.symm

-- ===========================================================================
-- C1
-- ===========================================================================

/-- C1: on every successful scoring call the returned breakdown satisfies the
aggregation pipeline of spec §4.4: `base_additive` is the clamped weighted sum
of the seven group additives, `gate_multiplier` the product of all clamped
gate values (empty product 1), `multiplier_product` the product of all clamped
multiplier values (empty product 1), `risk_index` the aggregate risk of the
group outputs, and `final_score` equals
`clamp(100·clamp(base·gates·mults·risk_discount, −1, 1), score_min, score_max)`
with `risk_discount = clamp(1 − risk_weight·risk_index^1.2, 0, 1)` — with all
intermediate quantities exposed unchanged. -/
theorem score_company_pipeline (data : ProviderData) (w : RubricWeights)
    (c : String) (h : TimeHorizon) (a : Option String) (rm : Option RegimeMixture)
    (bd : ScoreBreakdown) (hok : score_company data w c h a rm = .ok bd) :
    bd.base_additive = clamp (specWeightedBase w bd.group_outputs) (-1) 1 ∧
    bd.gate_multiplier = specGateProd bd.group_outputs ∧
    bd.multiplier_product = specMultProd bd.group_outputs ∧
    bd.risk_index = aggregate_risk bd.group_outputs ∧
    bd.final_score = clamp (100 * clamp (bd.base_additive * bd.gate_multiplier
        * bd.multiplier_product
        * clamp (1 - w.risk_weight * bd.risk_index ^ (1.2 : ℝ)) 0 1) (-1) 1)
      w.score_min w.score_max := by
  obtain ⟨mix, g1, g2, g3, g4, g5, g6, g7, -, -, -, -, -, -, -, hbd⟩ :=
    score_company_ok_elim hok
  subst hbd
  refine ⟨?_, ?_, ?_, rfl, ?_⟩
  · show clamp (w.w_macr * g1.additive + w.w_constraint * g2.additive
        + w.w_trust * g3.additive + w.w_control_points * g4.additive
        + w.w_adaptation * g5.additive + w.w_georeg * g6.additive
        + w.w_capital_alloc * g7.additive) (-1) 1
      = clamp (specWeightedBase w [("macro", g1), ("constraint", g2), ("trust", g3),
          ("control_points", g4), ("adaptation", g5), ("georeg", g6),
          ("capital_alloc", g7)]) (-1) 1
    congr 1
    simp [specWeightedBase, groupWeight]
    try ring
  · show (gatesMultsLoop [("macro", g1), ("constraint", g2), ("trust", g3),
        ("control_points", g4), ("adaptation", g5), ("georeg", g6),
        ("capital_alloc", g7)]).1
      = specGateProd [("macro", g1), ("constraint", g2), ("trust", g3),
        ("control_points", g4), ("adaptation", g5), ("georeg", g6),
        ("capital_alloc", g7)]
    rw [gatesMultsLoop_eq]
  · show (gatesMultsLoop [("macro", g1), ("constraint", g2), ("trust", g3),
        ("control_points", g4), ("adaptation", g5), ("georeg", g6),
        ("capital_alloc", g7)]).2
      = specMultProd [("macro", g1), ("constraint", g2), ("trust", g3),
        ("control_points", g4), ("adaptation", g5), ("georeg", g6),
        ("capital_alloc", g7)]
    rw [gatesMultsLoop_eq]
  · rfl

theorem score_dataW_ok :
    score_company dataW defaultRubricWeights "AcmeAI" TimeHorizon.MID none none
      = .ok bdW := rfl

theorem score_company_pipeline_witness :
    bdW.base_additive = clamp (specWeightedBase defaultRubricWeights bdW.group_outputs) (-1) 1 ∧
    bdW.gate_multiplier = specGateProd bdW.group_outputs ∧
    bdW.multiplier_product = specMultProd bdW.group_outputs ∧
    bdW.risk_index = aggregate_risk bdW.group_outputs ∧
    bdW.final_score = clamp (100 * clamp (bdW.base_additive * bdW.gate_multiplier
        * bdW.multiplier_product
        * clamp (1 - defaultRubricWeights.risk_weight * bdW.risk_index ^ (1.2 : ℝ)) 0 1) (-1) 1)
      defaultRubricWeights.score_min defaultRubricWeights.score_max :=
  score_company_pipeline dataW defaultRubricWeights "AcmeAI" TimeHorizon.MID none none
    bdW score_dataW_ok

-- ===========================================================================
-- C2
-- ===========================================================================

/-- C2: whenever the scoring call succeeds (every query resolved to a finite
value — all values are real in this model, however extreme) and the
configured bounds are ordered, the returned `final_score` lies within
`[score_min, score_max]`. -/
theorem final_score_within_bounds (data : ProviderData) (w : RubricWeights)
    (c : String) (h : TimeHorizon) (a : Option String) (rm : Option RegimeMixture)
    (bd : ScoreBreakdown) (hmm : w.score_min ≤ w.score_max)
    (hok : score_company data w c h a rm = .ok bd) :
    bd.final_score ∈ Set.Icc w.score_min w.score_max := by
  obtain ⟨mix, g1, g2, g3, g4, g5, g6, g7, -, -, -, -, -, -, -, hbd⟩ :=
    score_company_ok_elim hok
  subst hbd
  exact clamp_mem_Icc _ _ _ hmm

theorem final_score_within_bounds_witness :
    defaultRubricWeights.score_min ≤ defaultRubricWeights.score_max ∧
    bdW.final_score ∈ Set.Icc defaultRubricWeights.score_min defaultRubricWeights.score_max :=
  ⟨by norm_num [defaultRubricWeights],
   final_score_within_bounds dataW defaultRubricWeights "AcmeAI" TimeHorizon.MID none none
     bdW (by norm_num [defaultRubricWeights]) score_dataW_ok⟩

-- ===========================================================================
-- C5
-- ===========================================================================

/-- C5: if any of the signals `score_company` queries cannot be resolved
(entity or metric absent from the provider), the whole scoring call fails —
no `ScoreBreakdown` is produced, partial or otherwise, and no default value
is substituted for the missing signal. -/
theorem missing_signal_aborts (data : ProviderData) (w : RubricWeights)
    (c : String) (h : TimeHorizon) (a : Option String) (rm : Option RegimeMixture)
    (hfail : ∃ m ∈ requiredMetrics, ∀ s, getValue data m c h a ≠ Except.ok s) :
    ∀ bd, score_company data w c h a rm ≠ Except.ok bd := by
  intro bd hok
  obtain ⟨mix, g1, g2, g3, g4, g5, g6, g7, h1, h2, h3, h4, h5, h6, h7, -⟩ :=
    score_company_ok_elim hok
  obtain ⟨hm1, hm2⟩ := evalMacr_ok h1
  obtain ⟨hc1, hc2⟩ := evalConstraint_ok h2
  obtain ⟨ht1, ht2, ht3, ht4⟩ := evalTrust_ok h3
  obtain ⟨hp1, hp2, hp3, hp4⟩ := evalControl_ok h4
  obtain ⟨ho1, ho2, ho3, ho4⟩ := evalAdapt_ok h5
  obtain ⟨hr1, hr2, hr3, hr4, hr5⟩ := evalGeoreg_ok h6
  obtain ⟨hk1, hk2, hk3, hk4, hk5⟩ := evalCapalloc_ok h7
  obtain ⟨m, hm, hbad⟩ := hfail
  simp only [requiredMetrics, List.mem_cons, List.not_mem_nil, or_false] at hm
  rcases hm with rfl|rfl|rfl|rfl|rfl|rfl|rfl|rfl|rfl|rfl|rfl|rfl|rfl|rfl|rfl|rfl|rfl|rfl|rfl|rfl|rfl|rfl|rfl|rfl|rfl|rfl
  · obtain ⟨t, ht⟩ := hm1; exact hbad t ht
  · obtain ⟨t, ht⟩ := hm2; exact hbad t ht
  · obtain ⟨t, ht⟩ := hc1; exact hbad t ht
  · obtain ⟨t, ht⟩ := hc2; exact hbad t ht
  · obtain ⟨t, ht⟩ := ht1; exact hbad t ht
  · obtain ⟨t, ht⟩ := ht2; exact hbad t ht
  · obtain ⟨t, ht⟩ := ht3; exact hbad t ht
  · obtain ⟨t, ht⟩ := ht4; exact hbad t ht
  · obtain ⟨t, ht⟩ := hp1; exact hbad t ht
  · obtain ⟨t, ht⟩ := hp2; exact hbad t ht
  · obtain ⟨t, ht⟩ := hp3; exact hbad t ht
  · obtain ⟨t, ht⟩ := hp4; exact hbad t ht
  · obtain ⟨t, ht⟩ := ho1; exact hbad t ht
  · obtain ⟨t, ht⟩ := ho2; exact hbad t ht
  · obtain ⟨t, ht⟩ := ho3; exact hbad t ht
  · obtain ⟨t, ht⟩ := ho4; exact hbad t ht
  · obtain ⟨t, ht⟩ := hr1; exact hbad t ht
  · obtain ⟨t, ht⟩ := hr2; exact hbad t ht
  · obtain ⟨t, ht⟩ := hr3; exact hbad t ht
  · obtain ⟨t, ht⟩ := hr4; exact hbad t ht
  · obtain ⟨t, ht⟩ := hr5; exact hbad t ht
  · obtain ⟨t, ht⟩ := hk1; exact hbad t ht
  · obtain ⟨t, ht⟩ := hk2; exact hbad t ht
  · obtain ⟨t, ht⟩ := hk3; exact hbad t ht
  · obtain ⟨t, ht⟩ := hk4; exact hbad t ht
  · obtain ⟨t, ht⟩ := hk5; exact hbad t ht

theorem missing_signal_aborts_witness :
    (∃ m ∈ requiredMetrics, ∀ s,
        getValue dataNone m "X" TimeHorizon.SHORT none ≠ Except.ok s) ∧
    (∀ bd, score_company dataNone defaultRubricWeights "X" TimeHorizon.SHORT none none
        ≠ Except.ok bd) := by
  have hf : ∃ m ∈ requiredMetrics, ∀ s,
      getValue dataNone m "X" TimeHorizon.SHORT none ≠ Except.ok s := by
    refine ⟨"macro.company_sensitivity", by simp [requiredMetrics], ?_⟩
    intro s hcon
    simp [getValue, dataNone] at hcon
  exact ⟨hf, missing_signal_aborts dataNone defaultRubricWeights "X"
    TimeHorizon.SHORT none none hf⟩
